import Mathlib

/-
  Verification of the per-user session and progress-tracking orchestration
  engine of the YouTube downloader chat bot (src/bot.py).

  The embedding below translates the Python source into Lean:

  * `create_progress_bar`, `progress_updater` (per-entry), `handle_url`,
    `button_handler` and `download_media` are modelled as pure functions
    over an explicit global state `GState` holding the two module-level
    dictionaries `user_data` and `download_progress` plus the multiset of
    in-flight download jobs.
  * Outbound messaging-transport calls (reply_text / edit_message_text /
    send_message / delete_message / send_audio / send_video) are modelled
    as emitted `Action` values rather than real IO.
  * The external fetch operation (yt_dlp) is an oracle: an `Oracle` value
    fixes the outcome of the blocking download (metadata + file size, a
    raised error, or a missing/empty output file), whether the attachment
    send raises, and whether the error-path edit_message_text succeeds.
  * Timestamps (Python time.time()) are modelled as integers.
  * The event dispatch of python-telegram-bot is modelled by `step`:
    updates (messages, button presses) are processed one at a time
    (Application is built without concurrent_updates, and handlers block
    by default, so a new update handler starts only after the previous
    one returned; button_handler awaits download_media to completion, so
    while a download job is in flight no message/press handler runs).
    The worker-thread progress hook and the recurring progress_updater
    job do run while a download is in flight, and are separate events.
-/

namespace YTBot

/-! ### Python string helpers -/

/-- ASCII whitespace stripped by Python str.strip(). -/
def isPySpace (c : Char) : Bool :=
  c == ' ' || c == '\t' || c == '\n' || c == '\r' || c == '\x0b' || c == '\x0c'

/-- Python str.strip(): drop leading and trailing whitespace. -/
def pyStrip (s : String) : String :=
  String.mk ((((s.data.dropWhile isPySpace).reverse).dropWhile isPySpace).reverse)

/-- Does the character list `cs` begin with the pattern `p`? -/
def charsBeginWith : List Char → List Char → Bool
  | [], _ => true
  | _ :: _, [] => false
  | p :: ps, c :: cs => p == c && charsBeginWith ps cs

/-- Python str.startswith. -/
def strBeginsWith (s pat : String) : Bool :=
  charsBeginWith pat.data s.data

/-- Python s[:n] — the first n characters (code points) of s. -/
def pyTake (n : Nat) (s : String) : String :=
  String.mk (s.data.take n)

/-- Python str.upper restricted to ASCII (the source only uppercases
"mp3"/"mp4"). -/
def pyUpper (s : String) : String :=
  String.mk (s.data.map Char.toUpper)

/-- Python str.strip(ch): drop leading and trailing occurrences of ch. -/
def pyStripChar (ch : Char) (cs : List Char) : List Char :=
  (((cs.dropWhile (fun c => c == ch)).reverse).dropWhile (fun c => c == ch)).reverse

/-- Python s.split('.')[0]: the characters before the first dot. -/
def intPartChars (cs : List Char) : List Char :=
  cs.takeWhile (fun c => c != '.')

/-- Python s.split('_')[1]: after the first underscore, up to the next one.
For "format_mp4" this yields "mp4". -/
def splitUnderscoreSecond (s : String) : String :=
  String.mk (((s.data.dropWhile (fun c => c != '_')).drop 1).takeWhile (fun c => c != '_'))

/-- Accumulate a decimal numeral; none on the first non-digit. -/
def digitsValGo : List Char → Nat → Option Nat
  | [], acc => some acc
  | c :: cs, acc => if c.isDigit then digitsValGo cs (acc * 10 + (c.toNat - 48)) else none

/-- A non-empty all-digit numeral, else none. -/
def digitsVal : List Char → Option Nat
  | [] => none
  | c :: cs => digitsValGo (c :: cs) 0

/-- Python float(str) on the integer-part string, modelled for optionally
signed decimal integer literals with surrounding whitespace — the shapes
produced by yt-dlp percent strings ("  45.3%" has integer part "  45")
and by the inputs of the claims. Exotic float forms (exponents, inf,
nan, digit underscores) is outside the model: on those this parser
returns none where CPython would succeed or raise later, but no theorem
below instantiates such a string. -/
def parsePyFloatInt (cs0 : List Char) : Option Int :=
  let cs := (((cs0.dropWhile isPySpace).reverse).dropWhile isPySpace).reverse
  match cs with
  | '-' :: rest => (digitsVal rest).map (fun n => -(n : Int))
  | '+' :: rest => (digitsVal rest).map (fun n => (n : Int))
  | _ => (digitsVal cs).map (fun n => (n : Int))

/-- Python int(v / 10) for an integral float v: division truncated toward
zero. -/
def pyTruncDiv10 : Int → Int
  | Int.ofNat n => Int.ofNat (n / 10)
  | Int.negSucc n => -(Int.ofNat ((n + 1) / 10))

/-! ### create_progress_bar (src/bot.py lines 103-115) -/

/-- float(percentage_str.strip('%').split('.')[0]) wrapped in
try/except (ValueError, IndexError). none = the except branch taken. -/
def percent_parse (s : String) : Option Int :=
  parsePyFloatInt (intPartChars (pyStripChar '%' s.data))

/-- percent_value after the try/except: parse failure defaults to 0. -/
def percent_value (s : String) : Int :=
  (percent_parse s).getD 0

/-- filled_bars = int(percent_value / 10). No clamping in the source. -/
def filled_bars (s : String) : Int :=
  pyTruncDiv10 (percent_value s)

/-- empty_bars = bars - filled_bars with bars = 10. May be negative or
exceed 10. -/
def empty_bars (s : String) : Int :=
  10 - filled_bars s

/-- Python single-character string repetition; a non-positive count
yields the empty string. -/
def pyStrRepeat (ch : Char) (n : Int) : String :=
  String.mk (List.replicate n.toNat ch)

/-- progress_bar = "🟦" * filled_bars + "⬜" * empty_bars. -/
def progress_bar_str (s : String) : String :=
  pyStrRepeat '🟦' (filled_bars s) ++ pyStrRepeat '⬜' (empty_bars s)

/-- create_progress_bar(percentage_str): the backtick-quoted bar followed
by the raw input string. -/
def create_progress_bar (percentage_str : String) : String :=
  "`" ++ progress_bar_str percentage_str ++ "` " ++ percentage_str

/-- Number of filled (blue) segments in a rendered bar fragment. -/
def countFilled (s : String) : Nat :=
  s.data.count '🟦'

/-- Number of empty (white) segments in a rendered bar fragment. -/
def countEmpty (s : String) : Nat :=
  s.data.count '⬜'

/-! ### Data model: the module-level dictionaries and in-flight jobs -/

/-- One user_data[chat_id] entry. Keys absent until first assigned are
Option fields (the dict literal at lines 160-164 sets url/user_id/chat_id;
format_message_id, format, progress_message_id and title are added
later). -/
structure Session where
  url : String
  user_id : Nat
  chat_id : Nat
  format_message_id : Option Nat
  format : Option String
  progress_message_id : Option Nat
  title : Option String

deriving instance DecidableEq, Repr for Session

/-- One download_progress[chat_id] entry (the dict written by the
progress hook and by download_media). status is the Python string
'starting' / 'downloading' / 'finished'. -/
structure Snapshot where
  status : String
  percent : String
  speed : String
  eta : String
  last_update : Int

deriving instance DecidableEq, Repr for Snapshot

/-- The locals of one in-flight download_media invocation, read from
user_data at lines 213-215 before the blocking call. -/
structure RunningJob where
  chat_id : Nat
  url : String
  format_type : String
  progress_message_id : Nat

deriving instance DecidableEq, Repr for RunningJob

/-- An outbound messaging-transport call. -/
inductive Action
  | reply (c : Nat) (text : String)
  | presentChoices (c : Nat) (text : String)
  | editMsg (c : Nat) (mid : Nat) (text : String)
  | sendMsg (c : Nat) (text : String)
  | deleteMsg (c : Nat) (mid : Nat)
  | sendAudio (c : Nat) (size : Nat) (title64 : String)
  | sendVideo (c : Nat) (size : Nat) (title : String)

deriving instance DecidableEq, Repr for Action

/-- Result of the blocking fetch, fixed by the oracle:
fetchFail = extract_info/download (or the pre-download status edit)
raised with the given message; noFile = no .mp4/.mp3 output file was
found or it was empty; fetched = an artifact with the given title and
byte size was produced. -/
inductive FetchOutcome
  | fetchFail (cause : String)
  | noFile
  | fetched (title : String) (size : Nat)

deriving instance DecidableEq, Repr for FetchOutcome

/-- Environment oracle for one download_media run: the fetch outcome,
whether the attachment send raises (some cause) or succeeds (none), and
whether the error-path edit_message_text succeeds. Post-delivery
transport calls (delete_message, the summary send_message) are modelled
as succeeding. -/
structure Oracle where
  outcome : FetchOutcome
  uploadFail : Option String
  editErrOk : Bool

deriving instance DecidableEq, Repr for Oracle

/-- Global state: the two module-level dictionaries plus the in-flight
download_media invocations. -/
structure GState where
  user_data : Nat → Option Session
  download_progress : Nat → Option Snapshot
  running : List RunningJob

/-- Pointwise update of the user_data dictionary. -/
def setUD (c : Nat) (v : Option Session) (f : Nat → Option Session) : Nat → Option Session :=
  fun c2 => if c2 = c then v else f c2

/-- Pointwise update of the download_progress dictionary. -/
def setDP (c : Nat) (v : Option Snapshot) (f : Nat → Option Snapshot) : Nat → Option Snapshot :=
  fun c2 => if c2 = c then v else f c2

/-- Both dictionaries start empty (lines 22-23). -/
def initState : GState :=
  { user_data := fun _ => none, download_progress := fun _ => none, running := [] }

/-! ### handle_url (lines 146-179) -/

/-- The alternatives of (https?://)? in the URL pattern. -/
def schemeAlts : List String := ["https://", "http://", ""]

/-- The alternatives of (www\.)? in the URL pattern. -/
def wwwAlts : List String := ["www.", ""]

/-- The host alternatives (youtube|youtu|youtube-nocookie). -/
def hostAlts : List String := ["youtube", "youtu", "youtube-nocookie"]

/-- The top-level-domain alternatives (com|be). -/
def tldAlts : List String := ["com", "be"]

/-- re.match(r'(https?://)?(www\.)?(youtube|youtu|youtube-nocookie)\.(com|be)/.+', url):
anchored at the start only; `.+` requires at least one character after the
slash and `.` does not match a newline, so the character right after the
slash must exist and differ from '\n' (the rest of the string is
unconstrained since re.match needs no full match). -/
def matches_youtube_regex (url : String) : Bool :=
  schemeAlts.any fun p1 =>
    wwwAlts.any fun p2 =>
      hostAlts.any fun h =>
        tldAlts.any fun t =>
          let pre := (p1 ++ p2 ++ h ++ "." ++ t ++ "/").data
          charsBeginWith pre url.data &&
            match url.data.drop pre.length with
            | [] => false
            | ch :: _ => ch != '\n'

/-- handle_url: strip the message text, validate it against the URL
pattern; on failure reply with the invalid-URL prompt and leave the
state untouched; on success overwrite user_data[chat_id] with a fresh
session dict, present the two format choices, and record the id `mid`
of the sent choice message as format_message_id. -/
def handle_url (c : Nat) (text : String) (uid : Nat) (mid : Nat) (s : GState) : GState × List Action :=
  let url := pyStrip text
  if !matches_youtube_regex url then
    (s, [Action.reply c "❌ *Invalid YouTube URL!*\nPlease send a valid YouTube link."])
  else
    let sess : Session :=
      { url := url, user_id := uid, chat_id := c, format_message_id := some mid,
        format := none, progress_message_id := none, title := none }
    ({ s with user_data := setUD c (some sess) s.user_data },
     [Action.presentChoices c "🌌 *URL received!* Choose your desired format:"])

/-! ### button_handler (lines 181-205) and the entry of download_media
(lines 207-244) -/

/-- button_handler for a callback press carrying `dataStr`, on the choice
message `qmid`; `pmid` is the message id the transport assigns to the
new progress placeholder; `now` is time.time(). When the data names a
format but no session exists, the pressed message is edited to the
expired-session text and nothing else happens. Otherwise the format and
the placeholder id are stored and download_media is entered: its locals
are read (lines 213-215), the 'starting' snapshot is written (217-223),
the placeholder is edited to "Starting Download..." (239-244) and the
blocking fetch is spawned — recorded by appending a RunningJob; the rest
of download_media is the later `job_finish` step. -/
def button_handler (c : Nat) (dataStr : String) (qmid : Nat) (pmid : Nat) (now : Int) (s : GState) : GState × List Action :=
  if strBeginsWith dataStr "format_" then
    match s.user_data c with
    | none => (s, [Action.editMsg c qmid "❌ Session expired. Please send the URL again."])
    | some sess =>
      let format_type := splitUnderscoreSecond dataStr
      let sess2 : Session := { sess with format := some format_type, progress_message_id := some pmid }
      let j : RunningJob := { chat_id := c, url := sess2.url, format_type := format_type, progress_message_id := pmid }
      let snap : Snapshot := { status := "starting", percent := "0%", speed := "N/A", eta := "N/A", last_update := now }
      ({ user_data := setUD c (some sess2) s.user_data,
         download_progress := setDP c (some snap) s.download_progress,
         running := s.running ++ [j] },
       [Action.reply c "⚡ *Initializing ultra-fast download...*\n\n🚀 Preparing multi-threaded download...",
        Action.editMsg c pmid "📥 *Starting Download...*"])
  else (s, [])

/-! ### The worker-thread progress hook (lines 27-47) and the status
write at line 234 -/

/-- progress_hook(d): replaces download_progress[chat_id] with a
'downloading' snapshot carrying the yt-dlp display strings, or with the
fixed 'finished' snapshot. -/
def progress_hook (c : Nat) (finished : Bool) (percent speed eta : String) (now : Int) (s : GState) : GState :=
  if finished then
    { s with download_progress := setDP c (some { status := "finished", percent := "100%", speed := "N/A", eta := "0s", last_update := now }) s.download_progress }
  else
    { s with download_progress := setDP c (some { status := "downloading", percent := percent, speed := speed, eta := eta, last_update := now }) s.download_progress }

/-- download_progress[chat_id]['status'] = 'downloading' (line 234),
performed by the worker thread before ydl.download. The entry exists at
that point (written at 217-223); the none branch is defensive. -/
def markDownloading (c : Nat) (s : GState) : GState :=
  match s.download_progress c with
  | some snap => { s with download_progress := setDP c (some { snap with status := "downloading" }) s.download_progress }
  | none => s

/-! ### The tail of download_media (lines 246-339) -/

/-- The bounded error text of lines 318-322: the cause is str(e)[:100]
and a retry suggestion follows. -/
def errorMessage (cause : String) : String :=
  "❌ *Download/Upload Failed!*\n\nReason: `" ++ pyTake 100 cause ++ "`\n\nPlease try a different video or try again later."

/-- The message id the error path re-reads at line 327:
user_data[chat_id]['progress_message_id']. -/
def error_pmid (s : GState) (c : Nat) : Option Nat :=
  (s.user_data c).bind (fun sess => sess.progress_message_id)

/-- Lines 324-336: the error message is delivered by editing the status
message when the id is available and the edit succeeds; any exception
there (missing key or transport failure) falls back to sending a new
message. -/
def surfaced (c : Nat) (editOk : Bool) (pm : Option Nat) (cause : String) : Action :=
  match pm, editOk with
  | some m, true => Action.editMsg c m (errorMessage cause)
  | some _, false => Action.sendMsg c (errorMessage cause)
  | none, _ => Action.sendMsg c (errorMessage cause)

/-- The success epilogue (lines 298-313): delete the status message and
send the terminal summary. -/
def successTail (c : Nat) (pmid : Nat) (title : String) (format_type : String) (size : Nat) : List Action :=
  [Action.deleteMsg c pmid,
   Action.sendMsg c ("✅ *Download Complete!*\n\n**Title:** " ++ title ++ "\n**Format:** " ++ pyUpper format_type ++ "\n**Size:** " ++ toString (size / (1024 * 1024)) ++ "MB")]

/-- The worker's title write (line 233): user_data[chat_id]['title'] =
title. The entry exists whenever a job is in flight for the chat (it is
never deleted); the none branch is defensive. -/
def set_title (c : Nat) (title : String) (s : GState) : GState :=
  match s.user_data c with
  | some sess => { s with user_data := setUD c (some { sess with title := some title }) s.user_data }
  | none => s

/-- The finally of download_media (lines 337-339): the
download_progress entry is deleted whatever happened. -/
def clear_snapshot (c : Nat) (s : GState) : GState :=
  { s with download_progress := setDP c none s.download_progress }

/-- The outer except plus finally (lines 315-339): surface the bounded
error text (editing the status message, else sending a new one) and
delete the progress entry. user_data is untouched. -/
def fail_path (o : Oracle) (c : Nat) (st : GState) (pre : List Action) (cause : String) : GState × List Action :=
  (clear_snapshot c st, pre ++ [surfaced c o.editErrOk (error_pmid st c) cause])

/-- The str(e) the outer except of download_media sees, as a function of
the oracle and the job, or none when the run succeeds. Fetch errors are
wrapped "Download process failed: ..." (line 248); upload errors
"Upload to Telegram failed: ..." (line 296), which includes the
oversize raise of lines 282-283 on the video branch only. -/
def job_fail_cause (o : Oracle) (j : RunningJob) : Option String :=
  match o.outcome with
  | FetchOutcome.fetchFail cause => some ("Download process failed: " ++ cause)
  | FetchOutcome.noFile => some "Downloaded file not found or is empty."
  | FetchOutcome.fetched _ size =>
    if j.format_type == "mp3" then
      o.uploadFail.map (fun cse => "Upload to Telegram failed: " ++ cse)
    else if size > 2000 * 1024 * 1024 then
      some "Upload to Telegram failed: File too large for Telegram (2GB limit)."
    else
      o.uploadFail.map (fun cse => "Upload to Telegram failed: " ++ cse)

/-- The remainder of download_media once the blocking call returns
(lines 246-339). The job leaves the in-flight multiset; on a fetched
artifact the worker's title write (line 233) lands in user_data; the
status message is edited to "Uploading"; the attachment is attempted —
for mp3 with no size check, for video only below 2000·1024·1024 bytes —
and on success the epilogue runs. Every raise lands in the outer except
(lines 315-336), and the finally (337-339) always deletes the
download_progress entry. user_data is never deleted. -/
def job_finish (o : Oracle) (j : RunningJob) (s : GState) : GState × List Action :=
  let c := j.chat_id
  let s0 : GState := { s with running := s.running.filter (fun j2 => !(j2.chat_id == c)) }
  match o.outcome with
  | FetchOutcome.fetchFail cause => fail_path o c s0 [] ("Download process failed: " ++ cause)
  | FetchOutcome.noFile => fail_path o c s0 [] "Downloaded file not found or is empty."
  | FetchOutcome.fetched title size =>
    let s1 : GState := set_title c title s0
    let preActs : List Action := [Action.editMsg c j.progress_message_id "📤 *Uploading to Telegram...*\n\n✅ Download completed successfully!"]
    if j.format_type == "mp3" then
      let attempt := Action.sendAudio c size (pyTake 64 title)
      match o.uploadFail with
      | some cause => fail_path o c s1 (preActs ++ [attempt]) ("Upload to Telegram failed: " ++ cause)
      | none => (clear_snapshot c s1, preActs ++ [attempt] ++ successTail c j.progress_message_id title "mp3" size)
    else
      if size > 2000 * 1024 * 1024 then
        fail_path o c s1 preActs "Upload to Telegram failed: File too large for Telegram (2GB limit)."
      else
        let attempt := Action.sendVideo c size title
        match o.uploadFail with
        | some cause => fail_path o c s1 (preActs ++ [attempt]) ("Upload to Telegram failed: " ++ cause)
        | none => (clear_snapshot c s1, preActs ++ [attempt] ++ successTail c j.progress_message_id title j.format_type size)

/-! ### progress_updater (lines 117-144) -/

/-- The rendered status text of lines 127-133. -/
def status_text (bar speed eta : String) : String :=
  "📥 *Downloading...*\n\n" ++ bar ++ "\n**Speed:** " ++ speed ++ "\n**ETA:** " ++ eta ++ "\n\n`Please wait, processing at maximum speed...`"

/-- One iteration of the progress_updater loop, for the entry of one
chat: entries not updated for more than 300 seconds are deleted and
nothing is rendered for them (lines 121-123, checked before the status
test and so independent of phase); 'downloading' entries are rendered
and the status message edited when the session holds its id (125-141);
other entries are untouched. The loop body reads only this chat's
entries, so the whole tick is the pointwise map of this function. -/
def progress_updater_entry (now : Int) (c : Nat) (ud : Option Session) (snap : Snapshot) : Option Snapshot × Option Action :=
  if 300 < now - snap.last_update then (none, none)
  else if snap.status == "downloading" then
    match ud with
    | some sess =>
      match sess.progress_message_id with
      | some m => (some snap, some (Action.editMsg c m (status_text (create_progress_bar snap.percent) snap.speed snap.eta)))
      | none => (some snap, none)
    | none => (some snap, none)
  else (some snap, none)

/-- The state effect of one progress_updater tick at time `now`. -/
def progress_updater_state (now : Int) (s : GState) : GState :=
  { s with download_progress := fun c =>
      match s.download_progress c with
      | none => none
      | some snap => (progress_updater_entry now c (s.user_data c) snap).1 }

/-! ### Event dispatch -/

/-- The events of the system: an incoming text message (handle_url), a
callback press (button_handler, which runs download_media up to the
blocking call), a worker progress-hook write, the worker's status
write before ydl.download, the return of the blocking call (the rest
of download_media), and a progress_updater tick. -/
inductive Event
  | msg (c : Nat) (text : String) (uid : Nat) (mid : Nat)
  | press (c : Nat) (dataStr : String) (qmid : Nat) (pmid : Nat) (now : Int)
  | hook (c : Nat) (finished : Bool) (percent speed eta : String) (now : Int)
  | beginDL (c : Nat)
  | finish (c : Nat) (o : Oracle)
  | tick (now : Int)

/-- One dispatcher step. Message and press handlers run only while no
download is in flight: updates are processed sequentially (the
Application is built with the default non-concurrent update processing
and blocking handlers) and button_handler awaits download_media, so the
dispatcher is occupied for the whole job; an update arriving meanwhile
sits in the update queue and appears later in the trace. Hook writes
and the status write belong to a running job's worker thread; the
recurring progress_updater tick can fire at any time. -/
def step (s : GState) (e : Event) : GState × List Action :=
  match e with
  | Event.msg c text uid mid => if s.running.isEmpty then handle_url c text uid mid s else (s, [])
  | Event.press c d qmid pmid now => if s.running.isEmpty then button_handler c d qmid pmid now s else (s, [])
  | Event.hook c fin pct spd eta now =>
    if s.running.any (fun j => j.chat_id == c) then (progress_hook c fin pct spd eta now s, []) else (s, [])
  | Event.beginDL c =>
    if s.running.any (fun j => j.chat_id == c) then (markDownloading c s, []) else (s, [])
  | Event.finish c o =>
    match s.running.find? (fun j => j.chat_id == c) with
    | some j => job_finish o j s
    | none => (s, [])
  | Event.tick now => (progress_updater_state now s, [])

/-- The state component of a step. -/
def stepState (s : GState) (e : Event) : GState :=
  (step s e).1

/-- Run a list of events from a given state. -/
def execFrom (s : GState) (evs : List Event) : GState :=
  evs.foldl stepState s

/-- Run a list of events from the initial (empty-dictionary) state. -/
def execState (evs : List Event) : GState :=
  execFrom initState evs

/-! ### Concrete fixtures for counterexamples and witnesses -/

/-- An oversize video-format run: the artifact is one byte above the
2000·1024·1024-byte guard of line 282. -/
def c7oracle : Oracle :=
  { outcome := FetchOutcome.fetched "big" (2000 * 1024 * 1024 + 1), uploadFail := none, editErrOk := true }

/-- The in-flight job of the oversize run. -/
def c7job : RunningJob :=
  { chat_id := 1, url := "https://youtube.com/watch?v=abc", format_type := "mp4", progress_message_id := 11 }

/-- The state at the end of the oversize run's blocking call: chat 1
holds a session with the chosen mp4 format and the status-message id,
and a starting snapshot. -/
def c7state : GState :=
  { user_data := fun c2 =>
      if c2 = 1 then
        some { url := "https://youtube.com/watch?v=abc", user_id := 7, chat_id := 1,
               format_message_id := some 10, format := some "mp4",
               progress_message_id := some 11, title := none }
      else none,
    download_progress := fun c2 =>
      if c2 = 1 then some { status := "starting", percent := "0%", speed := "N/A", eta := "N/A", last_update := 100 }
      else none,
    running := [{ chat_id := 1, url := "https://youtube.com/watch?v=abc", format_type := "mp4", progress_message_id := 11 }] }

/-! ### Helper lemmas -/

theorem setUD_same (c : Nat) (v : Option Session) (f : Nat → Option Session) : setUD c v f c = v := by
  simp [setUD]

theorem setDP_same (c : Nat) (v : Option Snapshot) (f : Nat → Option Snapshot) : setDP c v f c = v := by
  simp [setDP]

theorem str_data_append (a b : String) : (a ++ b).data = a.data ++ b.data := by
  cases a
  cases b
  rfl

theorem str_length_append (a b : String) : (a ++ b).length = a.length + b.length :=
  String.length_append a b

theorem pyTake_length_le (n : Nat) (s : String) : (pyTake n s).length ≤ n := by
  show (s.data.take n).length ≤ n
  simp [List.length_take]

theorem progress_bar_str_data (s : String) :
    (progress_bar_str s).data =
      List.replicate (filled_bars s).toNat '🟦' ++ List.replicate (empty_bars s).toNat '⬜' := by
  simp [progress_bar_str, pyStrRepeat, str_data_append]

theorem countFilled_progress_bar (s : String) :
    countFilled (progress_bar_str s) = (filled_bars s).toNat := by
  simp [countFilled, progress_bar_str_data, List.count_append, List.count_replicate]

theorem countEmpty_progress_bar (s : String) :
    countEmpty (progress_bar_str s) = (empty_bars s).toNat := by
  simp [countEmpty, progress_bar_str_data, List.count_append, List.count_replicate]

theorem handle_url_running (c : Nat) (text : String) (uid mid : Nat) (s : GState) :
    ((handle_url c text uid mid s).1).running = s.running := by
  cases h : matches_youtube_regex (pyStrip text) <;> simp [handle_url, h]

theorem button_handler_running_le (c : Nat) (d : String) (qmid pmid : Nat) (now : Int) (s : GState) :
    ((button_handler c d qmid pmid now s).1).running.length ≤ s.running.length + 1 := by
  cases hb : strBeginsWith d "format_" <;> simp [button_handler, hb]
  cases hu : s.user_data c <;> simp [hu]

theorem set_title_running (c : Nat) (t : String) (s : GState) :
    (set_title c t s).running = s.running := by
  unfold set_title
  cases s.user_data c <;> rfl

theorem set_title_dp (c : Nat) (t : String) (s : GState) :
    (set_title c t s).download_progress = s.download_progress := by
  unfold set_title
  cases s.user_data c <;> rfl

theorem set_title_ud_isSome (c : Nat) (t : String) (s : GState) :
    ((set_title c t s).user_data c).isSome = ((s.user_data c)).isSome := by
  unfold set_title
  cases h : s.user_data c <;> simp [h, setUD_same]

theorem error_pmid_set_title (c : Nat) (t : String) (s : GState) :
    error_pmid (set_title c t s) c = error_pmid s c := by
  unfold set_title error_pmid
  cases h : s.user_data c <;> simp [h, setUD_same]

theorem clear_snapshot_dp_self (c : Nat) (s : GState) :
    (clear_snapshot c s).download_progress c = none := by
  simp [clear_snapshot, setDP_same]

theorem job_finish_running (o : Oracle) (j : RunningJob) (s : GState) :
    ((job_finish o j s).1).running = s.running.filter (fun j2 => !(j2.chat_id == j.chat_id)) := by
  cases ho : o.outcome with
  | fetchFail cause => simp [job_finish, ho, fail_path, clear_snapshot]
  | noFile => simp [job_finish, ho, fail_path, clear_snapshot]
  | fetched title size =>
    by_cases hf : j.format_type == "mp3"
    · cases hup : o.uploadFail <;>
        simp [job_finish, ho, hf, hup, fail_path, clear_snapshot, set_title_running]
    · by_cases hsz : size > 2000 * 1024 * 1024
      · simp [job_finish, ho, hf, hsz, fail_path, clear_snapshot, set_title_running]
      · cases hup : o.uploadFail <;>
          simp [job_finish, ho, hf, hsz, hup, fail_path, clear_snapshot, set_title_running]

theorem progress_hook_running (c : Nat) (fin : Bool) (pct spd eta : String) (now : Int) (s : GState) :
    (progress_hook c fin pct spd eta now s).running = s.running := by
  cases fin <;> rfl

theorem markDownloading_running (c : Nat) (s : GState) :
    (markDownloading c s).running = s.running := by
  unfold markDownloading
  cases s.download_progress c <;> rfl

theorem step_running_le_one (s : GState) (e : Event) (h : s.running.length ≤ 1) :
    ((step s e).1).running.length ≤ 1 := by
  cases e with
  | msg c text uid mid =>
    by_cases hr : s.running.isEmpty
    · simp [step, hr, handle_url_running]
      have := List.isEmpty_iff.mp hr
      simp [this]
    · simpa [step, hr] using h
  | press c d qmid pmid now =>
    by_cases hr : s.running.isEmpty
    · have hnil := List.isEmpty_iff.mp hr
      have hle := button_handler_running_le c d qmid pmid now s
      rw [hnil] at hle
      simp at hle
      simpa [step, hr] using hle
    · simpa [step, hr] using h
  | hook c fin pct spd eta now =>
    by_cases hr : s.running.any (fun j => j.chat_id == c)
    · simpa [step, hr, progress_hook_running] using h
    · simpa [step, hr] using h
  | beginDL c =>
    by_cases hr : s.running.any (fun j => j.chat_id == c)
    · simpa [step, hr, markDownloading_running] using h
    · simpa [step, hr] using h
  | finish c o =>
    cases hf : s.running.find? (fun j => j.chat_id == c) with
    | some j =>
      have := job_finish_running o j s
      simp [step, hf, this]
      exact le_trans (List.length_filter_le _ _) h
    | none => simpa [step, hf] using h
  | tick now => simpa [step, progress_updater_state] using h

theorem execFrom_running_le_one (evs : List Event) :
    ∀ s : GState, s.running.length ≤ 1 → (execFrom s evs).running.length ≤ 1 := by
  induction evs with
  | nil => intro s h; exact h
  | cons e evs ih =>
    intro s h
    exact ih (stepState s e) (step_running_le_one s e h)

theorem pyTruncDiv10_ofNat (n : Nat) : pyTruncDiv10 (Int.ofNat n) = Int.ofNat (n / 10) :=
  rfl

theorem surfaced_cases (c : Nat) (ok : Bool) (pm : Option Nat) (cause : String) :
    surfaced c ok pm cause = Action.sendMsg c (errorMessage cause) ∨
    ∃ m, pm = some m ∧ surfaced c ok pm cause = Action.editMsg c m (errorMessage cause) := by
  cases pm <;> cases ok <;> simp [surfaced]

theorem error_pmid_drop_running (s : GState) (r : List RunningJob) (c : Nat) :
    error_pmid { s with running := r } c = error_pmid s c :=
  rfl

/-! ### Claims -/

/-- C1: for every chat identifier, at most one Job (one execution of
download_media) is in flight at any instant along any event trace from
the initial state: new locator or format-choice events while a job is
in flight never produce a second concurrently-running job for the chat
(the dispatcher processes updates sequentially and button_handler
awaits download_media, so in every reachable state the in-flight
multiset holds at most one job, in particular at most one per chat). -/
theorem C1_at_most_one_job_per_chat (evs : List Event) (c : Nat) :
    (((execState evs).running).filter (fun j => j.chat_id == c)).length ≤ 1 :=
  le_trans (List.length_filter_le _ _)
    (execFrom_running_le_one evs initState (by simp [initState]))

/-- C2 counterexample: a full successful run for chat 1 (valid locator,
mp3 choice, fetched artifact). Afterwards the progress store is indeed
empty for the chat, but user_data still holds the session — the claim
that neither table contains an entry is false on the code. -/
theorem C2_session_survives_counterexample :
    ((execState [Event.msg 1 "https://youtube.com/watch?v=abc" 7 10,
                 Event.press 1 "format_mp3" 10 11 100,
                 Event.finish 1 ⟨FetchOutcome.fetched "song" 1000, none, true⟩]).user_data 1).isSome = true ∧
    (execState [Event.msg 1 "https://youtube.com/watch?v=abc" 7 10,
                Event.press 1 "format_mp3" 10 11 100,
                Event.finish 1 ⟨FetchOutcome.fetched "song" 1000, none, true⟩]).download_progress 1 = none := by
  decide

/-- C2 (amended): when a job reaches a terminal outcome (delivered or
failed), the ProgressSnapshot entry for the chat is removed, but the
Session entry is retained — download_media's finally deletes only
download_progress[chat_id]; user_data[chat_id] is never deleted. -/
theorem C2_terminal_clears_snapshot_retains_session (o : Oracle) (j : RunningJob) (s : GState) :
    (job_finish o j s).1.download_progress j.chat_id = none ∧
    ((job_finish o j s).1.user_data j.chat_id).isSome = (s.user_data j.chat_id).isSome := by
  cases ho : o.outcome with
  | fetchFail cause =>
    simp [job_finish, ho, fail_path, clear_snapshot, setDP_same]
  | noFile =>
    simp [job_finish, ho, fail_path, clear_snapshot, setDP_same]
  | fetched title size =>
    by_cases hf : j.format_type == "mp3"
    · cases hup : o.uploadFail <;>
        simp [job_finish, ho, hf, hup, fail_path, clear_snapshot, setDP_same, set_title_ud_isSome]
    · by_cases hsz : size > 2000 * 1024 * 1024
      · simp [job_finish, ho, hf, hsz, fail_path, clear_snapshot, setDP_same, set_title_ud_isSome]
      · cases hup : o.uploadFail <;>
          simp [job_finish, ho, hf, hsz, hup, fail_path, clear_snapshot, setDP_same, set_title_ud_isSome]

/-- C3 counterexample: the source applies no clamping — the numeric
input "150%" renders 15 filled segments and 0 empty ones, a 15-segment
bar, where the claim demands min(10, floor(150/10)) = 10 filled
segments in a 10-segment bar. -/
theorem C3_no_clamp_counterexample :
    countFilled (progress_bar_str "150%") = 15 ∧
    countEmpty (progress_bar_str "150%") = 0 ∧
    countFilled (progress_bar_str "150%") ≠ 10 := by
  decide

/-- C3 (amended): the rendered bar has int(percent/10)-truncated filled
segments and 10 - int(percent/10) empty segments with NO clamping (a
percent above 100 yields more than 10 filled segments and a longer
bar; a percent below -9 yields more than 10 empty ones); only for
percent values within [0,100] does the bar have exactly 10 segments
with floor(percent/10) filled; a non-numeric or malformed percent
string parses to 0 and renders as the 0%-filled bar. -/
theorem C3_bar_segment_counts (s : String) :
    countFilled (progress_bar_str s) = (filled_bars s).toNat ∧
    countEmpty (progress_bar_str s) = (empty_bars s).toNat ∧
    (0 ≤ percent_value s → percent_value s ≤ 100 →
      countFilled (progress_bar_str s) + countEmpty (progress_bar_str s) = 10 ∧
      countFilled (progress_bar_str s) = (percent_value s).toNat / 10) ∧
    (percent_parse s = none → progress_bar_str s = pyStrRepeat '⬜' 10) := by
  refine ⟨countFilled_progress_bar s, countEmpty_progress_bar s, ?_, ?_⟩
  · intro h0 h100
    obtain ⟨n, hn⟩ := Int.eq_ofNat_of_zero_le h0
    have hn100 : n ≤ 100 := by
      rw [hn] at h100
      exact_mod_cast h100
    have hdiv : n / 10 ≤ 10 := le_trans (Nat.div_le_div_right hn100) (by decide)
    have hfe : filled_bars s = Int.ofNat (n / 10) := by
      unfold filled_bars
      rw [hn]
      rfl
    have hee : (empty_bars s).toNat = 10 - n / 10 := by
      unfold empty_bars
      rw [hfe]
      generalize n / 10 = k at hdiv ⊢
      exact Int.toNat_sub 10 k
    have hcf : countFilled (progress_bar_str s) = n / 10 := by
      rw [countFilled_progress_bar, hfe]
      rfl
    have hce : countEmpty (progress_bar_str s) = 10 - n / 10 := by
      rw [countEmpty_progress_bar]
      exact hee
    refine ⟨?_, ?_⟩
    · rw [hcf, hce]
      omega
    · rw [hcf, hn]
      simp
  · intro hp
    have hv : percent_value s = 0 := by simp [percent_value, hp]
    have hf : filled_bars s = 0 := by
      unfold filled_bars
      rw [hv]
      rfl
    have he : empty_bars s = 10 := by
      unfold empty_bars
      rw [hf]
      omega
    unfold progress_bar_str
    rw [hf, he]
    decide

/-- C4: the progress-bar rendering is monotonic in the percent value on
[0,100] — whenever two inputs parse to percent values p1 ≤ p2 in that
range, the bar for the first has no more filled segments than the bar
for the second — and the malformed input "bad" deterministically
renders as the 0%-filled bar. -/
theorem C4_bar_monotone (s1 s2 : String) (h0 : 0 ≤ percent_value s1)
    (h12 : percent_value s1 ≤ percent_value s2) (_h100 : percent_value s2 ≤ 100) :
    countFilled (progress_bar_str s1) ≤ countFilled (progress_bar_str s2) ∧
    create_progress_bar "bad" = "`⬜⬜⬜⬜⬜⬜⬜⬜⬜⬜` bad" := by
  constructor
  · obtain ⟨a, ha⟩ := Int.eq_ofNat_of_zero_le h0
    obtain ⟨b, hb⟩ := Int.eq_ofNat_of_zero_le (le_trans h0 h12)
    have hab : a ≤ b := by
      rw [ha, hb] at h12
      exact_mod_cast h12
    have e1 : filled_bars s1 = Int.ofNat (a / 10) := by
      unfold filled_bars
      rw [ha]
      rfl
    have e2 : filled_bars s2 = Int.ofNat (b / 10) := by
      unfold filled_bars
      rw [hb]
      rfl
    rw [countFilled_progress_bar, countFilled_progress_bar, e1, e2]
    show a / 10 ≤ b / 10
    exact Nat.div_le_div_right hab
  · decide

/-- C5: a ProgressSnapshot whose last update is older than the 300
second staleness window is deleted from the progress store by the next
progress_updater tick, whatever its phase, and the tick renders no
status update from it. -/
theorem C5_stale_snapshot_evicted (s : GState) (now : Int) (c : Nat) (snap : Snapshot)
    (hsnap : s.download_progress c = some snap)
    (hstale : 300 < now - snap.last_update) :
    (progress_updater_state now s).download_progress c = none ∧
    progress_updater_entry now c (s.user_data c) snap = (none, none) := by
  have he : progress_updater_entry now c (s.user_data c) snap = (none, none) := by
    simp [progress_updater_entry, hstale]
  exact ⟨by simp [progress_updater_state, hsnap, he], he⟩

/-- C6: a format-choice press for a chat with no session is rejected:
the pressed message is edited to the expired-session text and the state
— session table, progress store and in-flight jobs — is returned
unchanged, so no job starts and no progress placeholder is created. -/
theorem C6_format_without_session_rejected (c : Nat) (dataStr : String) (qmid pmid : Nat)
    (now : Int) (s : GState)
    (hud : s.user_data c = none) (hfmt : strBeginsWith dataStr "format_" = true) :
    button_handler c dataStr qmid pmid now s =
      (s, [Action.editMsg c qmid "❌ Session expired. Please send the URL again."]) := by
  simp [button_handler, hfmt, hud]

/-- C7 counterexample: a video job whose artifact is one byte over the
size guard. Delivery fails as the claim says — no video is sent, the
truncated error is surfaced, the snapshot is cleared — but the session
is NOT cleared: user_data still holds the chat's entry, refuting the
claim's final part. -/
theorem C7_session_not_cleared_counterexample :
    ((job_finish c7oracle c7job c7state).1.user_data 1).isSome = true ∧
    Action.sendVideo 1 (2000 * 1024 * 1024 + 1) "big" ∉ (job_finish c7oracle c7job c7state).2 ∧
    Action.editMsg 1 11 (errorMessage "Upload to Telegram failed: File too large for Telegram (2GB limit).") ∈
      (job_finish c7oracle c7job c7state).2 ∧
    (job_finish c7oracle c7job c7state).1.download_progress 1 = none := by
  decide

/-- C7 (amended): for a video-format job whose artifact exceeds the
guard of 2000·1024·1024 bytes (just under 2 GiB; anything over 2 GiB
exceeds it too), delivery fails: no video attachment is ever sent, the
user is shown the truncated too-large error, and the progress snapshot
is cleared — but the session entry is retained, not cleared. -/
theorem C7_oversize_video_fails (o : Oracle) (j : RunningJob) (s : GState)
    (title : String) (size : Nat)
    (hfmt : j.format_type = "mp4") (ho : o.outcome = FetchOutcome.fetched title size)
    (hsize : 2000 * 1024 * 1024 < size) :
    (∀ sz t2, Action.sendVideo j.chat_id sz t2 ∉ (job_finish o j s).2) ∧
    surfaced j.chat_id o.editErrOk (error_pmid s j.chat_id)
        "Upload to Telegram failed: File too large for Telegram (2GB limit)." ∈ (job_finish o j s).2 ∧
    (job_finish o j s).1.download_progress j.chat_id = none ∧
    ((job_finish o j s).1.user_data j.chat_id).isSome = (s.user_data j.chat_id).isSome := by
  have hf3 : (j.format_type == "mp3") = false := by simp [hfmt]
  have hacts : (job_finish o j s).2 =
      [Action.editMsg j.chat_id j.progress_message_id "📤 *Uploading to Telegram...*\n\n✅ Download completed successfully!",
       surfaced j.chat_id o.editErrOk (error_pmid s j.chat_id)
         "Upload to Telegram failed: File too large for Telegram (2GB limit)."] := by
    simp [job_finish, ho, hf3, hsize, fail_path, error_pmid_set_title, error_pmid_drop_running]
  refine ⟨?_, ?_, ?_, ?_⟩
  · intro sz t2
    rw [hacts]
    rcases surfaced_cases j.chat_id o.editErrOk (error_pmid s j.chat_id)
        "Upload to Telegram failed: File too large for Telegram (2GB limit)." with hs | ⟨m, _, hs⟩ <;>
      simp [hs]
  · rw [hacts]
    simp
  · simp [job_finish, ho, hf3, hsize, fail_path, clear_snapshot, setDP_same]
  · simp [job_finish, ho, hf3, hsize, fail_path, clear_snapshot, set_title_ud_isSome]

/-- C8: on any fetch or delivery failure of download_media, the error
surfaced to the requester is the fixed message holding the
human-readable cause truncated to its first 100 characters plus a
retry suggestion (the whole text is at most 189 characters), and it is
delivered by editing the existing status message in place when its id
is known and the edit succeeds, else by sending a new message. -/
theorem C8_failure_error_surface (o : Oracle) (j : RunningJob) (s : GState) (cause : String)
    (h : job_fail_cause o j = some cause) :
    surfaced j.chat_id o.editErrOk (error_pmid s j.chat_id) cause ∈ (job_finish o j s).2 ∧
    (o.editErrOk = false → Action.sendMsg j.chat_id (errorMessage cause) ∈ (job_finish o j s).2) ∧
    (∀ m, error_pmid s j.chat_id = some m → o.editErrOk = true →
      Action.editMsg j.chat_id m (errorMessage cause) ∈ (job_finish o j s).2) ∧
    errorMessage cause =
      "❌ *Download/Upload Failed!*\n\nReason: `" ++ pyTake 100 cause ++
        "`\n\nPlease try a different video or try again later." ∧
    (pyTake 100 cause).length ≤ 100 ∧
    (errorMessage cause).length ≤ 189 := by
  have hmem : surfaced j.chat_id o.editErrOk (error_pmid s j.chat_id) cause ∈ (job_finish o j s).2 := by
    cases ho : o.outcome with
    | fetchFail cse =>
      rw [job_fail_cause, ho] at h
      simp at h
      simp [job_finish, ho, fail_path, error_pmid_drop_running, ← h]
    | noFile =>
      rw [job_fail_cause, ho] at h
      simp at h
      simp [job_finish, ho, fail_path, error_pmid_drop_running, ← h]
    | fetched title size =>
      by_cases hf : j.format_type == "mp3"
      · cases hup : o.uploadFail with
        | some cse =>
          rw [job_fail_cause, ho] at h
          simp [hf, hup] at h
          simp [job_finish, ho, hf, hup, fail_path, error_pmid_set_title, error_pmid_drop_running, ← h]
        | none =>
          rw [job_fail_cause, ho] at h
          simp [hf, hup] at h
      · by_cases hsz : size > 2000 * 1024 * 1024
        · rw [job_fail_cause, ho] at h
          simp [hf, hsz] at h
          simp [job_finish, ho, hf, hsz, fail_path, error_pmid_set_title, error_pmid_drop_running, ← h]
        · cases hup : o.uploadFail with
          | some cse =>
            rw [job_fail_cause, ho] at h
            simp [hf, hsz, hup] at h
            simp [job_finish, ho, hf, hsz, hup, fail_path, error_pmid_set_title, error_pmid_drop_running, ← h]
          | none =>
            rw [job_fail_cause, ho] at h
            simp [hf, hsz, hup] at h
  have hlen : (errorMessage cause).length ≤ 189 := by
    have hh : ("❌ *Download/Upload Failed!*\n\nReason: `" : String).length = 38 := by decide
    have ht : ("`\n\nPlease try a different video or try again later." : String).length = 51 := by decide
    have htk := pyTake_length_le 100 cause
    unfold errorMessage
    rw [str_length_append, str_length_append, hh, ht]
    omega
  refine ⟨hmem, ?_, ?_, rfl, pyTake_length_le 100 cause, hlen⟩
  · intro hok
    have hs : surfaced j.chat_id o.editErrOk (error_pmid s j.chat_id) cause =
        Action.sendMsg j.chat_id (errorMessage cause) := by
      rw [hok]
      cases error_pmid s j.chat_id <;> simp [surfaced]
    rw [hs] at hmem
    exact hmem
  · intro m hm hok
    have hs : surfaced j.chat_id o.editErrOk (error_pmid s j.chat_id) cause =
        Action.editMsg j.chat_id m (errorMessage cause) := by
      rw [hm, hok]
      simp [surfaced]
    rw [hs] at hmem
    exact hmem

/-- C9: a message whose stripped text fails the YouTube URL pattern is
rejected — the user is re-prompted with the invalid-URL message and the
whole state, in particular the session table, is unchanged; a text that
passes the pattern creates or overwrites the chat's Session (fresh
entry holding the stripped locator and the choice-message id), leaves
every other chat's session and the progress store untouched, and
presents the format choices. -/
theorem C9_locator_validation (c : Nat) (text : String) (uid mid : Nat) (s : GState) :
    (matches_youtube_regex (pyStrip text) = false →
      handle_url c text uid mid s =
        (s, [Action.reply c "❌ *Invalid YouTube URL!*\nPlease send a valid YouTube link."])) ∧
    (matches_youtube_regex (pyStrip text) = true →
      (handle_url c text uid mid s).1.user_data c =
        some { url := pyStrip text, user_id := uid, chat_id := c, format_message_id := some mid,
               format := none, progress_message_id := none, title := none } ∧
      (∀ c2, c2 ≠ c → (handle_url c text uid mid s).1.user_data c2 = s.user_data c2) ∧
      (handle_url c text uid mid s).1.download_progress = s.download_progress ∧
      (handle_url c text uid mid s).2 =
        [Action.presentChoices c "🌌 *URL received!* Choose your desired format:"]) := by
  constructor
  · intro h
    simp [handle_url, h]
  · intro h
    refine ⟨by simp [handle_url, h, setUD_same], ?_, by simp [handle_url, h], by simp [handle_url, h]⟩
    intro c2 hc2
    simp [handle_url, h, setUD, hc2]

/-- C10: an audio-format (mp3) job attempts the audio attachment send
with no size-limit check — the send_audio call is reached for every
artifact size, and the only failure the mp3 delivery branch can
surface is a transport error, never the too-large error; the
2000·1024·1024-byte guard sits on the video branch alone. -/
theorem C10_audio_sent_without_size_check (o : Oracle) (j : RunningJob) (s : GState)
    (title : String) (size : Nat)
    (hfmt : j.format_type = "mp3") (ho : o.outcome = FetchOutcome.fetched title size) :
    Action.sendAudio j.chat_id size (pyTake 64 title) ∈ (job_finish o j s).2 ∧
    job_fail_cause o j = o.uploadFail.map (fun cse => "Upload to Telegram failed: " ++ cse) := by
  have hf : (j.format_type == "mp3") = true := by simp [hfmt]
  constructor
  · cases hup : o.uploadFail <;>
      simp [job_finish, ho, hf, hup, fail_path, successTail]
  · simp [job_fail_cause, ho, hf]

/-! ### Witnesses -/

/-- Witness for C2 (amended) at a concrete failed run: the snapshot is
cleared while the session survives. -/
theorem C2_terminal_clears_snapshot_retains_session_witness :
    (job_finish ⟨FetchOutcome.fetchFail "net down", none, true⟩ c7job c7state).1.download_progress 1 = none ∧
    ((job_finish ⟨FetchOutcome.fetchFail "net down", none, true⟩ c7job c7state).1.user_data 1).isSome =
      ((c7state.user_data 1)).isSome :=
  C2_terminal_clears_snapshot_retains_session ⟨FetchOutcome.fetchFail "net down", none, true⟩ c7job c7state

/-- Witness for C3 (amended) at the malformed input "bad": zero filled
segments and the 0%-filled bar. -/
theorem C3_bar_segment_counts_witness :
    countFilled (progress_bar_str "bad") = (filled_bars "bad").toNat ∧
    progress_bar_str "bad" = pyStrRepeat '⬜' 10 :=
  ⟨(C3_bar_segment_counts "bad").1, (C3_bar_segment_counts "bad").2.2.2 (by decide)⟩

/-- Witness for C4 at the inputs "30%" and "70%". -/
theorem C4_bar_monotone_witness :
    countFilled (progress_bar_str "30%") ≤ countFilled (progress_bar_str "70%") ∧
    create_progress_bar "bad" = "`⬜⬜⬜⬜⬜⬜⬜⬜⬜⬜` bad" :=
  C4_bar_monotone "30%" "70%" (by decide) (by decide) (by decide)

/-- Witness for C5 at a concrete store holding a 301-second-old
downloading snapshot for chat 1. -/
theorem C5_stale_snapshot_evicted_witness :
    (progress_updater_state 301
        ⟨fun _ => none,
         fun c2 => if c2 = 1 then some ⟨"downloading", "50%", "1MB/s", "10s", 0⟩ else none,
         []⟩).download_progress 1 = none ∧
    progress_updater_entry 301 1 none ⟨"downloading", "50%", "1MB/s", "10s", 0⟩ = (none, none) :=
  C5_stale_snapshot_evicted
    ⟨fun _ => none,
     fun c2 => if c2 = 1 then some ⟨"downloading", "50%", "1MB/s", "10s", 0⟩ else none,
     []⟩ 301 1 ⟨"downloading", "50%", "1MB/s", "10s", 0⟩ (by decide) (by decide)

/-- Witness for C6: pressing the mp3 format button in the empty initial
state. -/
theorem C6_format_without_session_rejected_witness :
    button_handler 1 "format_mp3" 5 6 0 initState =
      (initState, [Action.editMsg 1 5 "❌ Session expired. Please send the URL again."]) :=
  C6_format_without_session_rejected 1 "format_mp3" 5 6 0 initState rfl (by decide)

/-- Witness for C7 (amended) at the oversize fixture. -/
theorem C7_oversize_video_fails_witness :
    (∀ sz t2, Action.sendVideo 1 sz t2 ∉ (job_finish c7oracle c7job c7state).2) ∧
    surfaced 1 true (error_pmid c7state 1)
        "Upload to Telegram failed: File too large for Telegram (2GB limit)." ∈
      (job_finish c7oracle c7job c7state).2 :=
  ⟨(C7_oversize_video_fails c7oracle c7job c7state "big" (2000 * 1024 * 1024 + 1) rfl rfl (by decide)).1,
   (C7_oversize_video_fails c7oracle c7job c7state "big" (2000 * 1024 * 1024 + 1) rfl rfl (by decide)).2.1⟩

/-- Witness for C8 at a concrete fetch failure with a failing edit: the
fallback message is sent. -/
theorem C8_failure_error_surface_witness :
    surfaced 1 false (error_pmid initState 1) "Download process failed: boom" ∈
      (job_finish ⟨FetchOutcome.fetchFail "boom", none, false⟩ ⟨1, "u", "mp3", 9⟩ initState).2 ∧
    Action.sendMsg 1 (errorMessage "Download process failed: boom") ∈
      (job_finish ⟨FetchOutcome.fetchFail "boom", none, false⟩ ⟨1, "u", "mp3", 9⟩ initState).2 ∧
    (errorMessage "Download process failed: boom").length ≤ 189 :=
  ⟨(C8_failure_error_surface ⟨FetchOutcome.fetchFail "boom", none, false⟩ ⟨1, "u", "mp3", 9⟩
      initState "Download process failed: boom" (by decide)).1,
   (C8_failure_error_surface ⟨FetchOutcome.fetchFail "boom", none, false⟩ ⟨1, "u", "mp3", 9⟩
      initState "Download process failed: boom" (by decide)).2.1 rfl,
   (C8_failure_error_surface ⟨FetchOutcome.fetchFail "boom", none, false⟩ ⟨1, "u", "mp3", 9⟩
      initState "Download process failed: boom" (by decide)).2.2.2.2.2⟩

/-- Witness for C9 at the spec's invalid locator "not-a-url": rejected
with the state unchanged. -/
theorem C9_locator_validation_witness :
    handle_url 1 "not-a-url" 7 10 initState =
      (initState, [Action.reply 1 "❌ *Invalid YouTube URL!*\nPlease send a valid YouTube link."]) :=
  (C9_locator_validation 1 "not-a-url" 7 10 initState).1 (by decide)

/-- Witness for C10 at a 3 GiB artifact — well over the video limit,
yet the audio send is attempted. -/
theorem C10_audio_sent_without_size_check_witness :
    Action.sendAudio 1 (3 * 1024 * 1024 * 1024) (pyTake 64 "big") ∈
      (job_finish ⟨FetchOutcome.fetched "big" (3 * 1024 * 1024 * 1024), none, true⟩
        ⟨1, "u", "mp3", 9⟩ initState).2 :=
  (C10_audio_sent_without_size_check
    ⟨FetchOutcome.fetched "big" (3 * 1024 * 1024 * 1024), none, true⟩
    ⟨1, "u", "mp3", 9⟩ initState "big" (3 * 1024 * 1024 * 1024) rfl rfl).1

end YTBot
